import Mathlib

/-!
Verification development for the dbastion policy-and-decision pipeline.

The Lean definitions in this file are a shallow embedding of the Python
sources under `src/dbastion/`.  Pure functions are translated directly;
the sqlglot parser library is an external collaborator and is modelled as
an oracle (`Sqlglot`) supplying parse results, mirroring the exception
taxonomy of `sqlglot.errors` (`ParseError` and `TokenizeError` are sibling
subclasses of `SqlglotError`).  Python runtime exceptions that can escape
the modelled code are represented with the `PyErr` type.  Machine floats
appearing in cost thresholds are modelled by `Rat`; none of the proved
properties depends on float-specific behaviour.  Numeric string formatting
(`%.1f` and friends) is modelled by `toString`.
-/

set_option linter.unusedVariables false

namespace DBastion

/-! ### Diagnostic code registry — `dbastion/diagnostics/codes.py` -/

/-- `DiagnosticCode` dataclass: a stable `Q<nnnn>` code. -/
structure DiagnosticCode where
  value : Nat
deriving DecidableEq, Repr

/-- `DiagnosticCode.__str__`: zero-padded `Q<nnnn>` rendering. -/
def DiagnosticCode.str (c : DiagnosticCode) : String :=
  let digits := toString c.value
  "Q" ++ String.mk (List.replicate (4 - digits.length) '0') ++ digits

def SYNTAX_ERROR : DiagnosticCode := ⟨1⟩
def TABLE_NOT_FOUND : DiagnosticCode := ⟨101⟩
def COLUMN_NOT_FOUND : DiagnosticCode := ⟨102⟩
def AMBIGUOUS_COLUMN : DiagnosticCode := ⟨103⟩
def DELETE_WITHOUT_WHERE : DiagnosticCode := ⟨201⟩
def MULTIPLE_STATEMENTS : DiagnosticCode := ⟨202⟩
def UPDATE_WITHOUT_WHERE : DiagnosticCode := ⟨203⟩
def CROSS_JOIN_NO_CONDITION : DiagnosticCode := ⟨204⟩
def CONSTANT_CONDITION : DiagnosticCode := ⟨205⟩
def WRITE_BLOCKED : DiagnosticCode := ⟨301⟩
def DDL_BLOCKED : DiagnosticCode := ⟨302⟩
def COST_OVER_THRESHOLD : DiagnosticCode := ⟨401⟩
def FULL_TABLE_SCAN : DiagnosticCode := ⟨402⟩
def VALUE_NOT_IN_COLUMN : DiagnosticCode := ⟨501⟩
def TYPE_MISMATCH : DiagnosticCode := ⟨502⟩
def LIMIT_INJECTED : DiagnosticCode := ⟨601⟩
def SELECT_STAR_EXPANDED : DiagnosticCode := ⟨602⟩

/-- Runtime attribute lookup on the `dbastion.diagnostics.codes` module.
Exactly the module-level constants of `codes.py` are defined; any other
attribute access raises `AttributeError` at runtime in Python.  Note that
`DANGEROUS_FUNCTION` and `ADMIN_BLOCKED` are *not* defined in `codes.py`
even though `safety.py` and the test suite refer to them. -/
def codesAttr : String → Option DiagnosticCode
  | "SYNTAX_ERROR" => some SYNTAX_ERROR
  | "TABLE_NOT_FOUND" => some TABLE_NOT_FOUND
  | "COLUMN_NOT_FOUND" => some COLUMN_NOT_FOUND
  | "AMBIGUOUS_COLUMN" => some AMBIGUOUS_COLUMN
  | "DELETE_WITHOUT_WHERE" => some DELETE_WITHOUT_WHERE
  | "MULTIPLE_STATEMENTS" => some MULTIPLE_STATEMENTS
  | "UPDATE_WITHOUT_WHERE" => some UPDATE_WITHOUT_WHERE
  | "CROSS_JOIN_NO_CONDITION" => some CROSS_JOIN_NO_CONDITION
  | "CONSTANT_CONDITION" => some CONSTANT_CONDITION
  | "WRITE_BLOCKED" => some WRITE_BLOCKED
  | "DDL_BLOCKED" => some DDL_BLOCKED
  | "COST_OVER_THRESHOLD" => some COST_OVER_THRESHOLD
  | "FULL_TABLE_SCAN" => some FULL_TABLE_SCAN
  | "VALUE_NOT_IN_COLUMN" => some VALUE_NOT_IN_COLUMN
  | "TYPE_MISMATCH" => some TYPE_MISMATCH
  | "LIMIT_INJECTED" => some LIMIT_INJECTED
  | "SELECT_STAR_EXPANDED" => some SELECT_STAR_EXPANDED
  | _ => none

/-! ### Diagnostic data model — `dbastion/diagnostics/types.py` -/

/-- `Level(enum.IntEnum)`. -/
inductive Level where
  | info
  | warning
  | error
deriving DecidableEq, Repr

/-- `Applicability(enum.Enum)`. -/
inductive Applicability where
  | machine_applicable
  | maybe_incorrect
  | has_placeholders
deriving DecidableEq, Repr

/-- `Span` dataclass: `[start, stop)` offsets into the SQL text
(the Python field named `end` is called `stop` here — `end` is a Lean
keyword). -/
structure Span where
  start : Nat
  stop : Nat
deriving DecidableEq, Repr

/-- `SpanKind(enum.Enum)`. -/
inductive SpanKind where
  | primary
  | secondary
deriving DecidableEq, Repr

/-- `SpanLabel` dataclass. -/
structure SpanLabel where
  span : Span
  kind : SpanKind
  label : Option String
deriving DecidableEq, Repr

/-- `SubstitutionPart` dataclass. -/
structure SubstitutionPart where
  span : Span
  replacement : String
deriving DecidableEq, Repr

/-- `Suggestion` dataclass. -/
structure Suggestion where
  message : String
  parts : List SubstitutionPart
  applicability : Applicability
deriving DecidableEq, Repr

/-- `Diagnostic` dataclass. -/
structure Diagnostic where
  level : Level
  code : DiagnosticCode
  message : String
  spans : List SpanLabel
  notes : List String
  suggestions : List Suggestion
deriving DecidableEq, Repr

/-- `Diagnostic.error` classmethod. -/
def Diagnostic.error (code : DiagnosticCode) (message : String) : Diagnostic :=
  ⟨Level.error, code, message, [], [], []⟩

/-- `Diagnostic.warning` classmethod. -/
def Diagnostic.warning (code : DiagnosticCode) (message : String) : Diagnostic :=
  ⟨Level.warning, code, message, [], [], []⟩

/-- `Diagnostic.info` classmethod. -/
def Diagnostic.info (code : DiagnosticCode) (message : String) : Diagnostic :=
  ⟨Level.info, code, message, [], [], []⟩

/-- `Diagnostic.span` builder: append a primary span label. -/
def Diagnostic.span (d : Diagnostic) (s : Span) (label : String) : Diagnostic :=
  { d with spans := d.spans ++ [⟨s, SpanKind.primary, some label⟩] }

/-- `Diagnostic.note` builder. -/
def Diagnostic.note (d : Diagnostic) (n : String) : Diagnostic :=
  { d with notes := d.notes ++ [n] }

/-- `Diagnostic.fix` builder: append a MachineApplicable suggestion. -/
def Diagnostic.fix (d : Diagnostic) (message : String) (s : Span) (replacement : String) :
    Diagnostic :=
  { d with suggestions :=
      d.suggestions ++ [⟨message, [⟨s, replacement⟩], Applicability.machine_applicable⟩] }

/-- `Diagnostic.suggest` builder: append a MaybeIncorrect suggestion. -/
def Diagnostic.suggest (d : Diagnostic) (message : String) (s : Span) (replacement : String) :
    Diagnostic :=
  { d with suggestions :=
      d.suggestions ++ [⟨message, [⟨s, replacement⟩], Applicability.maybe_incorrect⟩] }

/-- `Diagnostic.suggest_template` builder. -/
def Diagnostic.suggest_template (d : Diagnostic) (message : String) : Diagnostic :=
  { d with suggestions := d.suggestions ++ [⟨message, [], Applicability.has_placeholders⟩] }

/-- `Diagnostic.is_blocking` property. -/
def Diagnostic.is_blocking (d : Diagnostic) : Bool :=
  d.level = Level.error

/-- `Diagnostic.auto_fixable_suggestions`. -/
def Diagnostic.auto_fixable_suggestions (d : Diagnostic) : List Suggestion :=
  d.suggestions.filter (fun s => s.applicability = Applicability.machine_applicable)

/-- `DiagnosticResult` dataclass; `tables` and `classification` have
dataclass defaults `[]` and `None`. -/
structure DiagnosticResult where
  original_sql : String
  healed_sql : Option String
  diagnostics : List Diagnostic
  blocked : Bool
  tables : List String
  classification : Option String
deriving DecidableEq, Repr

/-- `DiagnosticResult.effective_sql` property. -/
def DiagnosticResult.effective_sql (r : DiagnosticResult) : String :=
  match r.healed_sql with
  | some h => h
  | none => r.original_sql

/-! ### Fix application — `apply_fixes` in `dbastion/diagnostics/types.py` -/

/-- Gather all MachineApplicable `SubstitutionPart`s across the diagnostics
(the list comprehension at the start of `apply_fixes`). -/
def gatherParts (diagnostics : List Diagnostic) : List SubstitutionPart :=
  diagnostics.flatMap (fun d => (d.auto_fixable_suggestions).flatMap (fun s => s.parts))

/-- The sort relation of `parts.sort(key=lambda p: p.span.start, reverse=True)`:
descending by span start.  Python list sort is stable; `List.insertionSort`
with this relation is the corresponding stable sort. -/
def partGe (a b : SubstitutionPart) : Prop :=
  b.span.start ≤ a.span.start

instance : DecidableRel partGe := fun a b =>
  inferInstanceAs (Decidable (b.span.start ≤ a.span.start))

instance : IsTotal SubstitutionPart partGe :=
  ⟨fun a b => (Nat.le_total b.span.start a.span.start).elim Or.inl Or.inr⟩

instance : IsTrans SubstitutionPart partGe :=
  ⟨fun _ _ _ h1 h2 => Nat.le_trans h2 h1⟩

/-- The adjacent-overlap scan of `apply_fixes`: after the descending sort,
`parts[i+1].span.end > parts[i].span.start` for some `i`. -/
def adjacentBad : List SubstitutionPart → Bool
  | a :: b :: rest => decide (a.span.start < b.span.stop) || adjacentBad (b :: rest)
  | _ => false

/-- One splice step: `result[:span.start] + replacement + result[span.end:]`
(Python slices clamp out-of-range indices, as `List.take`/`List.drop` do). -/
def spliceOne (sql : String) (p : SubstitutionPart) : String :=
  String.mk (sql.toList.take p.span.start ++ p.replacement.toList ++ sql.toList.drop p.span.stop)

/-- `apply_fixes(sql, diagnostics)` from `types.py`. -/
def apply_fixes (sql : String) (diagnostics : List Diagnostic) : Option String :=
  let parts := gatherParts diagnostics
  if parts.isEmpty then
    none
  else
    let sorted := List.insertionSort partGe parts
    if adjacentBad sorted then
      none
    else
      some (sorted.foldl spliceOne sql)

/-- Two half-open spans properly overlap: they have a common offset. -/
def Span.overlaps (a b : Span) : Prop :=
  a.start < b.stop ∧ b.start < a.stop

instance (a b : Span) : Decidable (Span.overlaps a b) := instDecidableAnd

/-! ### sqlglot expression trees — the AST fragment the policy code consumes

A sqlglot `Expression` is modelled as a rose tree with a kind tag: the
constructor classes the policy code dispatches on (`isinstance` checks) are
the `NodeKind` values.  `name` carries the payload the code reads from a
node: the function name of `exp.Anonymous`/`exp.Func` nodes (as produced by
`func.name` / `func.sql_name()`), the qualified table name of `exp.Table`
nodes, the numeral of a `Limit`.  The body of an `exp.CTE` (its `this` arg)
is modelled as its first child.  `find` / `find_all` walk the whole
subtree, as in sqlglot. -/

inductive NodeKind where
  | select
  | union
  | intersect
  | exceptOp
  | insert
  | update
  | delete
  | merge
  | create
  | drop
  | alter
  | truncateTable
  | grant
  | copyCmd
  | command
  | cte
  | into
  | limitClause
  | groupClause
  | whereClause
  | funcCall
  | anonymousCall
  | table
  | column
  | literal
  | other
deriving DecidableEq, Repr

inductive Node where
  | mk (kind : NodeKind) (name : String) (children : List Node)

def Node.kind : Node → NodeKind
  | .mk k _ _ => k

def Node.name : Node → String
  | .mk _ n _ => n

def Node.children : Node → List Node
  | .mk _ _ cs => cs

mutual

/-- All nodes of the subtree rooted at `n` (models `Expression.walk`; only
presence and the set of visited nodes matter to the translated code, not
the visit order). -/
def Node.preorder : Node → List Node
  | .mk k n cs => .mk k n cs :: preorderList cs

def preorderList : List Node → List Node
  | [] => []
  | c :: cs => c.preorder ++ preorderList cs

end

/-- `statement.find(T) is not None`, i.e. some node of kind `k` occurs in
the subtree. -/
def Node.hasKind (s : Node) (k : NodeKind) : Bool :=
  s.preorder.any (fun n => decide (n.kind = k))

/-! ### Statement classification — `dbastion/policy/_types.py` and
`dbastion/policy/classify.py` -/

/-- `StatementType(enum.Enum)`. -/
inductive StatementType where
  | read
  | dml
  | ddl
  | admin
  | unknown
deriving DecidableEq, Repr

/-- The `.value` string of each `StatementType` member. -/
def StatementType.value : StatementType → String
  | .read => "read"
  | .dml => "dml"
  | .ddl => "ddl"
  | .admin => "admin"
  | .unknown => "unknown"

/-- `_READ_TYPES = (exp.Select, exp.Union, exp.Intersect, exp.Except)`. -/
def isReadKind : NodeKind → Bool
  | .select | .union | .intersect | .exceptOp => true
  | _ => false

/-- `_DML_TYPES = (exp.Insert, exp.Update, exp.Delete, exp.Merge)`. -/
def isDmlKind : NodeKind → Bool
  | .insert | .update | .delete | .merge => true
  | _ => false

/-- `_DDL_TYPES = (exp.Create, exp.Drop, exp.Alter, exp.TruncateTable)`. -/
def isDdlKind : NodeKind → Bool
  | .create | .drop | .alter | .truncateTable => true
  | _ => false

/-- `_BLOCKED_TYPES = (exp.Grant, exp.Copy, exp.Command)`. -/
def isBlockedKind : NodeKind → Bool
  | .grant | .copyCmd | .command => true
  | _ => false

/-- `_has_dml_in_cte(statement)`: some CTE of the subtree has a DML body
(`cte.this`, modelled as the first child of the CTE node). -/
def _has_dml_in_cte (statement : Node) : Bool :=
  (statement.preorder.filter (fun n => decide (n.kind = NodeKind.cte))).any
    (fun c =>
      match c.children.head? with
      | some body => isDmlKind body.kind
      | none => false)

/-- `_has_into(statement)`: the root is a plain `Select` and an `Into` node
occurs in the subtree (`statement.find(exp.Into)`). -/
def _has_into (statement : Node) : Bool :=
  decide (statement.kind = NodeKind.select) && statement.hasKind NodeKind.into

/-- `classify(statement)` from `classify.py`. -/
def classify (statement : Node) : StatementType :=
  if isBlockedKind statement.kind then
    StatementType.admin
  else if isReadKind statement.kind then
    if _has_dml_in_cte statement then StatementType.dml
    else if _has_into statement then StatementType.ddl
    else StatementType.read
  else if isDmlKind statement.kind then
    StatementType.dml
  else if isDdlKind statement.kind then
    StatementType.ddl
  else
    StatementType.unknown

/-! ### Python string helpers -/

/-- The whitespace characters stripped by `str.strip()` (ASCII range). -/
def pyIsSpace (c : Char) : Bool :=
  c = ' ' || c = '\t' || c = '\n' || c = '\x0d' || c = '\x0b' || c = '\x0c'

/-- `sql.strip()`. -/
def pyStrip (s : String) : String :=
  String.mk (((s.toList.dropWhile pyIsSpace).reverse.dropWhile pyIsSpace).reverse)

/-- `name.lower()` (ASCII case folding; the function names compared are
ASCII). -/
def pyLower (s : String) : String :=
  String.mk (s.toList.map Char.toLower)

/-- `sql.find(";")` feeding the fallback `len(sql) // 2`: the character
offset used for the Q0202 primary span. -/
def firstSemiElseMid (sql : String) : Nat :=
  match sql.toList.findIdx? (fun c => c = ';') with
  | some i => i
  | none => sql.length / 2

/-! ### The sqlglot collaborator and Python exceptions

`sqlglot.errors` defines `ParseError` and `TokenizeError` as *sibling*
subclasses of `SqlglotError`; an `except sqlglot.errors.ParseError` clause
therefore does not catch a `TokenizeError`.  The parser itself is an
assumed collaborator, modelled as an oracle. -/

inductive SqlglotError where
  | parseError (msg : String)
  | tokenizeError (msg : String)
deriving DecidableEq, Repr

/-- The sqlglot entry points the policy code calls.  `parse` models
`sqlglot.parse(sql)` (a list of statements in which empty trailing
segments are `None`); `parse_one` models `sqlglot.parse_one(sql, dialect)`. -/
structure Sqlglot where
  parse : String → Except SqlglotError (List (Option Node))
  parse_one : String → Option String → Except SqlglotError Node

/-- Python runtime exceptions that can escape the modelled code. -/
inductive PyErr where
  | attributeError (msg : String)
  | uncaught (e : SqlglotError)
deriving DecidableEq, Repr

/-! ### Safety checks — `dbastion/policy/safety.py` -/

/-- `check_multiple_statements(sql)`: count the statements `sqlglot.parse`
yields, dropping `None` entries (trailing semicolons); any `SqlglotError`
is swallowed.  Emits the Q0202 diagnostic when more than one non-empty
statement is present. -/
def check_multiple_statements (sqlglot : Sqlglot) (sql : String) : Option Diagnostic :=
  match sqlglot.parse sql with
  | .error _ => none
  | .ok statements =>
    let statements := statements.filterMap id
    if statements.length ≤ 1 then
      none
    else
      let semi_pos := firstSemiElseMid sql
      some
        ((((Diagnostic.error MULTIPLE_STATEMENTS "multiple statements detected").span
              ⟨semi_pos, semi_pos + 1⟩ "second statement starts here").note
            "only single statements are allowed (possible SQL injection)").note
          "split into separate dbastion query calls if intentional")

/-- `check_dangerous_functions(statement, sql, blocked_functions)`: walk
`find_all(exp.Anonymous, exp.Func)`; on the first call whose lower-cased
name is in the blocklist the code evaluates `codes.DANGEROUS_FUNCTION`,
an attribute that `codes.py` does not define — in Python this raises
`AttributeError` instead of returning a diagnostic. -/
def check_dangerous_functions (statement : Node) (sql : String)
    (blocked_functions : List String) : Except PyErr (Option Diagnostic) :=
  if blocked_functions.isEmpty then
    .ok none
  else
    match (statement.preorder.filter
        (fun n => decide (n.kind = NodeKind.anonymousCall) || decide (n.kind = NodeKind.funcCall))).find?
        (fun f => blocked_functions.contains (pyLower f.name)) with
    | none => .ok none
    | some f =>
      match codesAttr "DANGEROUS_FUNCTION" with
      | none =>
        .error (.attributeError
          "module dbastion.diagnostics.codes has no attribute DANGEROUS_FUNCTION")
      | some code =>
        .ok (some ((Diagnostic.error code ("dangerous function blocked: " ++ f.name)).note
          "this function can cause damage even inside a SELECT"))

/-- `check_delete_without_where(statement, sql)`. -/
def check_delete_without_where (statement : Node) (sql : String) : Option Diagnostic :=
  if statement.kind = NodeKind.delete then
    if statement.hasKind NodeKind.whereClause then
      none
    else
      some (((Diagnostic.error DELETE_WITHOUT_WHERE "DELETE without WHERE clause").note
          "this would affect all rows in the table").suggest_template
        "add a WHERE clause: DELETE FROM ... WHERE <condition>")
  else
    none

/-- `check_update_without_where(statement, sql)`. -/
def check_update_without_where (statement : Node) (sql : String) : Option Diagnostic :=
  if statement.kind = NodeKind.update then
    if statement.hasKind NodeKind.whereClause then
      none
    else
      some (((Diagnostic.error UPDATE_WITHOUT_WHERE "UPDATE without WHERE clause").note
          "this would affect all rows in the table").suggest_template
        "add a WHERE clause: UPDATE ... SET ... WHERE <condition>")
  else
    none

/-! ### Table extraction — `dbastion/policy/tables.py`

`extract_tables` primarily uses sqlglot scope analysis and falls back to
`_walk_tables`, a plain AST walk collecting `exp.Table` nodes; its output
is a sorted duplicate-free list of qualified names.  No claim constrains
the extracted tables, so the model uses the plain-walk form (`name` of a
`table` node already carries the `schema.table` qualified name built by
`_qualified_name`). -/

def _walk_tables (statement : Node) : List String :=
  List.insertionSort (fun a b : String => a ≤ b)
    (((statement.preorder.filter
        (fun n => decide (n.kind = NodeKind.table) && !n.name.isEmpty)).map Node.name).dedup)

def extract_tables (statement : Node) : List String :=
  _walk_tables statement

/-! ### Enrichment — `dbastion/policy/enrich.py` -/

def DEFAULT_LIMIT : Nat := 1000

/-- The `Limit` node synthesised by `statement.limit(n)`. -/
def limitNode (limit : Nat) : Node :=
  Node.mk NodeKind.limitClause (toString limit) []

/-- `statement.limit(n)`: the sqlglot builder attaching a `LIMIT` clause to
a select. -/
def withLimit (statement : Node) (limit : Nat) : Node :=
  Node.mk statement.kind statement.name (statement.children ++ [limitNode limit])

/-- `inject_limit(statement, limit=...)` from `enrich.py`: add `LIMIT` to
unbounded `SELECT` statements.  No-op when the root is not a plain select,
when a `Limit` node occurs anywhere in the tree, or when a `Group` node
occurs anywhere in the tree. -/
def inject_limit (statement : Node) (limit : Nat) : Node × Option Diagnostic :=
  if !(decide (statement.kind = NodeKind.select)) then
    (statement, none)
  else if statement.hasKind NodeKind.limitClause then
    (statement, none)
  else if statement.hasKind NodeKind.groupClause then
    (statement, none)
  else
    (withLimit statement limit,
     some ((Diagnostic.info LIMIT_INJECTED
        ("LIMIT " ++ toString limit ++ " added to unbounded SELECT")).note
       "override with --no-limit or --limit N"))

/-! ### SQL generation — `statement.sql(dialect=...)`

Models the sqlglot generator on the embedded fragment: every node renders
its keyword token, its payload and its children.  The dialect only selects
concrete surface syntax in sqlglot and is not modelled. -/

def NodeKind.token : NodeKind → String
  | .select => "SELECT"
  | .union => "UNION"
  | .intersect => "INTERSECT"
  | .exceptOp => "EXCEPT"
  | .insert => "INSERT"
  | .update => "UPDATE"
  | .delete => "DELETE"
  | .merge => "MERGE"
  | .create => "CREATE"
  | .drop => "DROP"
  | .alter => "ALTER"
  | .truncateTable => "TRUNCATE"
  | .grant => "GRANT"
  | .copyCmd => "COPY"
  | .command => ""
  | .cte => "WITH"
  | .into => "INTO"
  | .limitClause => "LIMIT"
  | .groupClause => "GROUP BY"
  | .whereClause => "WHERE"
  | .funcCall => ""
  | .anonymousCall => ""
  | .table => ""
  | .column => ""
  | .literal => ""
  | .other => ""

mutual

def nodeSql : Node → String
  | .mk k n cs => k.token ++ (if n.isEmpty then "" else " " ++ n) ++ sqlChildren cs

def sqlChildren : List Node → String
  | [] => ""
  | c :: cs => " " ++ nodeSql c ++ sqlChildren cs

end

/-! ### The pipeline driver — `run_policy` in `dbastion/policy/__init__.py`

The translation is line-for-line.  Note three properties of the source
this development examines: the access-control step handles only the DML
and DDL classes; no dangerous-function step exists (and the function takes
no blocklist parameter, although `cli/query.py` and `cli/exec.py` pass a
`dangerous_functions=` keyword argument, a `TypeError` at call time); and
the final `DiagnosticResult` is built without the `classification` field,
leaving its dataclass default `None`. -/

/-- Step 4 of `run_policy` — access control.  Only the DML and DDL classes
are handled by the `if`/`elif`; ADMIN and UNKNOWN statements fall through
with no diagnostic. -/
def access_control (stmt_type : StatementType) (allow_write : Bool) : List Diagnostic :=
  match stmt_type, allow_write with
  | .dml, false =>
    [(Diagnostic.error WRITE_BLOCKED "write operation blocked").note
      "pass --allow-write to enable DML operations"]
  | .ddl, false =>
    [(Diagnostic.error DDL_BLOCKED "DDL operation blocked").note
      "pass --allow-write to enable DDL operations"]
  | _, _ => []

/-- Step 5 of `run_policy` — the safety-check loop, which runs exactly
`check_delete_without_where` and `check_update_without_where`. -/
def safety_checks (statement : Node) (sql : String) : List Diagnostic :=
  [check_delete_without_where statement sql,
   check_update_without_where statement sql].filterMap id

/-- Step 6 of `run_policy` — enrichment, guarded by "not already blocked,
classified READ, limit not None".  Returns the healed SQL (the re-serialised
statement, when injection happened) and the optional Q0601 diagnostic. -/
def enrich_step (blocked : Bool) (stmt_type : StatementType) (limit : Option Nat)
    (statement : Node) : Option String × Option Diagnostic :=
  match blocked, stmt_type, limit with
  | false, .read, some n =>
    match inject_limit statement n with
    | (statement2, some limit_diag) => (some (nodeSql statement2), some limit_diag)
    | (_, none) => (none, none)
  | _, _, _ => (none, none)

def run_policy (sqlglot : Sqlglot) (sql : String) (dialect : Option String)
    (allow_write : Bool) (limit : Option Nat) : Except PyErr DiagnosticResult :=
  let sql := pyStrip sql
  match check_multiple_statements sqlglot sql with
  | some multi_diag =>
    .ok ⟨sql, none, [multi_diag], true, [], none⟩
  | none =>
    match sqlglot.parse_one sql dialect with
    | .error (.parseError msg) =>
      .ok ⟨sql, none, [Diagnostic.error SYNTAX_ERROR ("SQL syntax error: " ++ msg)],
        true, [], none⟩
    | .error e =>
      -- only `except sqlglot.errors.ParseError` guards the call: a
      -- `TokenizeError` propagates out of `run_policy`
      .error (.uncaught e)
    | .ok statement =>
      let tables := extract_tables statement
      let stmt_type := classify statement
      let diagnostics := access_control stmt_type allow_write ++ safety_checks statement sql
      let blocked := diagnostics.any Diagnostic.is_blocking
      let step6 := enrich_step blocked stmt_type limit statement
      let healed_sql := step6.1
      let diagnostics := diagnostics ++ step6.2.toList
      let blocked := diagnostics.any Diagnostic.is_blocking
      .ok ⟨sql, healed_sql, diagnostics, blocked, tables, none⟩

/-! ### Cost estimates and the cost gate — `dbastion/adapters/_base.py` and
`dbastion/adapters/cost.py`

Python float values are modelled by `Rat`. -/

/-- `CostEstimate` dataclass (the fields the gate reads). -/
structure CostEstimate where
  estimated_cost_usd : Option Rat
  estimated_gb : Option Rat
  estimated_rows : Option Rat
  plan_node : Option String
  warnings : List String
  summary : String
deriving DecidableEq, Repr

/-- `check_cost_threshold(estimate, max_gb=..., max_usd=..., max_rows=...)`
from `cost.py`.  The parameter is annotated `CostEstimate`, but
`cli/query.py` passes the raw result of `adapter.dry_run`, which may be
`None`; each clause short-circuits on the threshold first, so an attribute
access on a `None` estimate — raising `AttributeError` — happens exactly
when the corresponding threshold was requested. -/
def check_cost_threshold (estimate : Option CostEstimate)
    (max_gb max_usd max_rows : Option Rat) : Except PyErr (Option Diagnostic) := do
  -- GB clause
  match max_gb with
  | some g =>
    match estimate with
    | none => throw (.attributeError "NoneType object has no attribute estimated_gb")
    | some est =>
      match est.estimated_gb with
      | some v =>
        if g < v then
          let diag := Diagnostic.error COST_OVER_THRESHOLD
            ("query would scan " ++ toString v ++ " GB (limit: " ++ toString g ++ " GB)")
          let diag :=
            match est.estimated_cost_usd with
            | some u => diag.note ("estimated cost: $" ++ toString u)
            | none => diag
          return some diag
      | none => pure ()
  | none => pure ()
  -- USD clause
  match max_usd with
  | some u =>
    match estimate with
    | none => throw (.attributeError "NoneType object has no attribute estimated_cost_usd")
    | some est =>
      match est.estimated_cost_usd with
      | some v =>
        if u < v then
          return some (Diagnostic.error COST_OVER_THRESHOLD
            ("query cost $" ++ toString v ++ " exceeds limit $" ++ toString u))
      | none => pure ()
  | none => pure ()
  -- rows clause
  match max_rows with
  | some r =>
    match estimate with
    | none => throw (.attributeError "NoneType object has no attribute estimated_rows")
    | some est =>
      match est.estimated_rows with
      | some v =>
        if r < v then
          let diag := Diagnostic.error COST_OVER_THRESHOLD
            ("query estimates " ++ toString v ++ " rows (limit: " ++ toString r ++ ")")
          let diag := est.warnings.foldl Diagnostic.note diag
          return some diag
      | none => pure ()
  | none => pure ()
  return none

/-! ### CLI decision gates — `dbastion/cli/query.py` and
`dbastion/cli/exec.py`

The post-policy decision logic of `_run_query` and `_run_exec` is embedded
as functions of the policy result, the flags and the adapter dry-run
outcome (`None` means "this engine cannot estimate this statement type").
Adapter connection errors and output rendering are outside the claims. -/

/-- Outcome of one CLI invocation of the query/exec pipelines. -/
inductive CliOutcome where
  | policyDeny
  | readRejected
  | costDeny (d : Diagnostic)
  | dryRunStop
  | executed
  | raised (e : PyErr)
deriving DecidableEq, Repr

/-- `max_gb is not None or max_usd is not None or max_rows is not None`
(`has_cost_thresholds` in `_run_exec`). -/
def has_cost_thresholds (max_gb max_usd max_rows : Option Rat) : Bool :=
  max_gb.isSome || max_usd.isSome || max_rows.isSome

/-- Steps 3–4 of `_run_query` (query.py lines 84–181): the blocked check,
dry-run, unconditional `check_cost_threshold` call on the raw estimate,
dry-run stop, then execution.  An exception from the cost check propagates
(it is not an `AdapterError`, the only class the `query` command
catches). -/
def run_query_gate (policy : DiagnosticResult) (dry_run_only skip_dry_run : Bool)
    (dry_run_result : Option CostEstimate) (max_gb max_usd max_rows : Option Rat) :
    CliOutcome :=
  if policy.blocked then
    .policyDeny
  else if !skip_dry_run || dry_run_only then
    match check_cost_threshold dry_run_result max_gb max_usd max_rows with
    | .error e => .raised e
    | .ok (some d) => .costDeny d
    | .ok none => if dry_run_only then .dryRunStop else .executed
  else
    .executed

/-- Steps 1–4 of `_run_exec` (exec.py lines 46–127): the read-rejection
check (`policy_result.classification == "read"`), the blocked check, the
dry-run with the explicit no-estimate branch that emits Q0401 when any
threshold was requested, then execution. -/
def run_exec_gate (policy : DiagnosticResult) (skip_dry_run : Bool)
    (dry_run_result : Option CostEstimate) (max_gb max_usd max_rows : Option Rat) :
    CliOutcome :=
  if policy.classification = some "read" then
    .readRejected
  else if policy.blocked then
    .policyDeny
  else if !skip_dry_run then
    match dry_run_result with
    | some est =>
      match check_cost_threshold (some est) max_gb max_usd max_rows with
      | .error e => .raised e
      | .ok (some d) => .costDeny d
      | .ok none => .executed
    | none =>
      if has_cost_thresholds max_gb max_usd max_rows then
        .costDeny (Diagnostic.error COST_OVER_THRESHOLD
          "cost thresholds requested but database cannot estimate cost for this statement type")
      else
        .executed
  else
    .executed

/-- Exit code of a CLI outcome: 0 on allow/ask paths, 1 on the deny paths;
an uncaught Python exception also terminates the process with a non-zero
status, but prints a traceback instead of a decision document. -/
def CliOutcome.exit_code : CliOutcome → Nat
  | .policyDeny => 1
  | .readRejected => 1
  | .costDeny _ => 1
  | .dryRunStop => 0
  | .executed => 0
  | .raised _ => 1

/-! ### Query log retention — `cleanup_old_logs` in `dbastion/querylog.py`

The filesystem state of the per-project log directory is modelled as the
list of its entry names.  `datetime.strptime(stem, "%Y-%m-%d")` accepts a
4-digit year and 1- or 2-digit month and day, rejects trailing text, and
validates the calendar day (including leap years) via the `datetime`
constructor; dates compare as their UTC midnight timestamps. -/

structure Date where
  year : Nat
  month : Nat
  day : Nat
deriving DecidableEq, Repr

def isLeapYear (y : Nat) : Bool :=
  y % 4 = 0 && (y % 100 ≠ 0 || y % 400 = 0)

def daysInMonth (y m : Nat) : Nat :=
  if m = 2 then (if isLeapYear y then 29 else 28)
  else if m = 4 || m = 6 || m = 9 || m = 11 then 30
  else 31

/-- Days before the first of month `m` in a non-leap year. -/
def daysBeforeMonth (m : Nat) : Nat :=
  [0, 31, 59, 90, 120, 151, 181, 212, 243, 273, 304, 334].getD (m - 1) 0

/-- Proleptic Gregorian ordinal (day 1 is 0001-01-01), as used by
`datetime.date.toordinal`. -/
def dateOrdinal (d : Date) : Int :=
  365 * ((d.year : Int) - 1) + ((d.year : Int) - 1) / 4 - ((d.year : Int) - 1) / 100
    + ((d.year : Int) - 1) / 400
    + (daysBeforeMonth d.month : Int)
    + (if 2 < d.month && isLeapYear d.year then 1 else 0)
    + (d.day : Int)

/-- POSIX timestamp (seconds) of UTC midnight of the date; ordinal 719163
is 1970-01-01. -/
def dateSecUTC (d : Date) : Int :=
  (dateOrdinal d - 719163) * 86400

def decDigits (s : List Char) : Bool :=
  s.all (fun c => c.isDigit)

def digitsToNat (s : List Char) : Nat :=
  s.foldl (fun acc c => acc * 10 + (c.toNat - 48)) 0

/-- Split a character list at every `'-'`, like Python `s.split("-")`. -/
def splitDash : List Char → List (List Char)
  | [] => [[]]
  | c :: rest =>
    match splitDash rest with
    | h :: t => if c = '-' then [] :: h :: t else (c :: h) :: t
    | [] => [[c]]

/-- `datetime.strptime(s, "%Y-%m-%d")` followed by the `datetime`
constructor checks: `%Y` is exactly four digits, `%m` and `%d` are one or
two digits in range (no `00`), the whole string must be consumed, the year
is in `[1, 9999]` and the day exists in the month. -/
def strptimeYmd (s : String) : Option Date :=
  match splitDash s.toList with
  | [yc, mc, dc] =>
    if yc.length = 4 && decDigits yc
        && (mc.length = 1 || mc.length = 2) && decDigits mc
        && (dc.length = 1 || dc.length = 2) && decDigits dc then
      let y := digitsToNat yc
      let m := digitsToNat mc
      let d := digitsToNat dc
      if 1 ≤ y && 1 ≤ m && m ≤ 12 && 1 ≤ d && d ≤ daysInMonth y m then
        some ⟨y, m, d⟩
      else
        none
    else
      none
  | _ => none

/-- `log_dir.glob("*.jsonl")`: names ending in `.jsonl`, excluding hidden
names (a `*` glob never matches a leading dot). -/
def globJsonl (name : String) : Bool :=
  (match name.toList with
   | '.' :: _ => false
   | _ => true)
  && ".jsonl".toList.isSuffixOf name.toList

/-- `Path.stem` of a `*.jsonl` name: drop the final `.jsonl` suffix. -/
def stemJsonl (name : String) : String :=
  String.mk (name.toList.take (name.length - 6))

/-- The deletion test of the loop body: the stem parses as a date and
`file_date < cutoff` where `cutoff = now - timedelta(days=retention_days)`. -/
def logFileTooOld (nowSec : Int) (retention_days : Nat) (name : String) : Bool :=
  match strptimeYmd (stemJsonl name) with
  | none => false
  | some d => decide (dateSecUTC d < nowSec - (retention_days : Int) * 86400)

/-- `cleanup_old_logs(retention_days=...)`, acting on a directory state:
iterate over the glob matches, unlink each file whose stem parses as a
date older than the cutoff (counting deletions), then `rmdir` the
directory with `OSError` suppressed — so the directory disappears exactly
when nothing remains in it.  Returns
`(deleted count, directory still exists, remaining entries)`. -/
def cleanup_old_logs (dirExists : Bool) (entries : List String) (nowSec : Int)
    (retention_days : Nat) : Nat × Bool × List String :=
  if !dirExists then
    (0, false, [])
  else
    let files := entries.filter globJsonl
    let final := files.foldl
      (fun (st : List String × Nat) name =>
        if logFileTooOld nowSec retention_days name then
          (st.1.erase name, st.2 + 1)
        else
          st)
      (entries, 0)
    let removed := final.1.isEmpty
    (final.2, !removed, if removed then [] else final.1)

/-- The deletion predicate of the claim: a `*.jsonl` glob match whose stem
parses as a `YYYY-MM-DD` date strictly before the retention cutoff. -/
def expiredLogName (nowSec : Int) (retention_days : Nat) (name : String) : Bool :=
  globJsonl name && logFileTooOld nowSec retention_days name

/-! ### Concrete statements and parser oracles used in the evaluations -/

/-- An oracle under which `sql` parses to the single statement `stmt`. -/
def oracleFor (sql : String) (stmt : Node) : Sqlglot :=
  ⟨fun s => if s = sql then .ok [some stmt] else .ok [],
   fun s _ => if s = sql then .ok stmt else .error (.parseError "unexpected input")⟩

/-- `GRANT SELECT ON users TO readonly_role` — an `exp.Grant` root. -/
def grantStmt : Node := Node.mk NodeKind.grant "" []

def grantSql : String := "GRANT SELECT ON users TO readonly_role"

/-- `SET ROLE admin` — a statement kind outside every classifier list
(classified UNKNOWN). -/
def unknownStmt : Node := Node.mk NodeKind.other "" []

def unknownSql : String := "SET ROLE admin"

/-- `SELECT pg_terminate_backend(pg_backend_pid())` — a select whose only
work is a dangerous anonymous function call. -/
def dangerStmt : Node :=
  Node.mk NodeKind.select ""
    [Node.mk NodeKind.anonymousCall "pg_terminate_backend"
      [Node.mk NodeKind.anonymousCall "pg_backend_pid" []]]

def dangerSql : String := "SELECT pg_terminate_backend(pg_backend_pid())"

/-- `SELECT 1`. -/
def selectOneStmt : Node := Node.mk NodeKind.select "" [Node.mk NodeKind.literal "1" []]

/-- An oracle for malformed single-statement input that fails at the
parser stage with `ParseError`. -/
def parseErrOracle : Sqlglot :=
  ⟨fun _ => .ok [some selectOneStmt],
   fun _ _ => .error (.parseError "Expecting expression")⟩

/-- An oracle for input that fails at the tokenizer stage (for example an
unclosed string literal): both `sqlglot.parse` and `sqlglot.parse_one`
raise `TokenizeError`. -/
def tokErrOracle : Sqlglot :=
  ⟨fun _ => .error (.tokenizeError "Error tokenizing input"),
   fun _ _ => .error (.tokenizeError "Error tokenizing input")⟩

/-- A pipeline result of an unblocked read, as `run_policy` returns it
(`classification` left `None`). -/
def passedReadPolicy : DiagnosticResult := ⟨"SELECT 1", none, [], false, [], none⟩

/-! ### Claim theorems -/

/-- C1 (code bug): for an ADMIN statement (privilege grant) the pipeline
of `policy/__init__.py` returns `blocked = false` with no diagnostics —
with and without write-allowance — and likewise for an UNKNOWN statement,
because the access-control step only handles the DML and DDL classes and
`codes.py` defines no `ADMIN_BLOCKED` code.  This contradicts the claim
(and `tests/policy/test_pipeline.py::TestAdminBlocked`), which demand
`blocked = true` with a blocking Q0303 access-band error. -/
theorem run_policy_admin_unknown_fall_through :
    classify grantStmt = StatementType.admin
    ∧ classify unknownStmt = StatementType.unknown
    ∧ run_policy (oracleFor grantSql grantStmt) grantSql none true none =
        .ok ⟨grantSql, none, [], false, [], none⟩
    ∧ run_policy (oracleFor grantSql grantStmt) grantSql none false none =
        .ok ⟨grantSql, none, [], false, [], none⟩
    ∧ run_policy (oracleFor unknownSql unknownStmt) unknownSql none true none =
        .ok ⟨unknownSql, none, [], false, [], none⟩
    ∧ run_policy (oracleFor unknownSql unknownStmt) unknownSql none false none =
        .ok ⟨unknownSql, none, [], false, [], none⟩ :=
  ⟨rfl, rfl, rfl, rfl, rfl, rfl⟩

/-- C2 (code bug): `run_policy` never runs the dangerous-function check —
on a select whose blocklisted call should be blocked it returns
`blocked = false` with no diagnostics — and `check_dangerous_functions`
itself cannot return the promised diagnostic value: on the first match it
evaluates `codes.DANGEROUS_FUNCTION`, which `codes.py` does not define, so
the check raises `AttributeError` instead.  (`run_policy` also has no
`dangerous_functions` parameter, although both CLI entry points pass one.) -/
theorem dangerous_function_never_blocks :
    run_policy (oracleFor dangerSql dangerStmt) dangerSql none false none =
      .ok ⟨dangerSql, none, [], false, [], none⟩
    ∧ check_dangerous_functions dangerStmt dangerSql ["pg_terminate_backend"] =
      .error (.attributeError
        "module dbastion.diagnostics.codes has no attribute DANGEROUS_FUNCTION") :=
  ⟨rfl, rfl⟩

/-- C6 (code bug): a `ParseError` on the single-statement path does become
a blocking Q0001 result, but a `TokenizeError` (unclosed string literal,
unclosed comment) is not caught — `run_policy` guards `parse_one` with
`except sqlglot.errors.ParseError` only, and `TokenizeError` is a sibling
subclass of `SqlglotError`, so the exception propagates out of the façade
instead of surfacing as a diagnostic.  (The multi-statement count does
swallow the same error, per the claim.) -/
theorem run_policy_tokenize_error_escapes :
    run_policy parseErrOracle "SELECT FROM" none false (some 1000) =
      .ok ⟨"SELECT FROM", none,
        [Diagnostic.error SYNTAX_ERROR "SQL syntax error: Expecting expression"],
        true, [], none⟩
    ∧ run_policy tokErrOracle "SELECT /* unclosed" none false (some 1000) =
      .error (.uncaught (.tokenizeError "Error tokenizing input")) :=
  ⟨rfl, rfl⟩

/-- C8 (code bug): with a cost threshold requested and no dry-run estimate,
the exec entry point denies with the Q0401 "cannot estimate" error (exit
code 1) as claimed, but the query entry point passes the `None` estimate
straight into `check_cost_threshold`, whose first requested-threshold
clause dereferences it — an uncaught `AttributeError`, not a Q0401 deny.
With no thresholds requested both entry points proceed to execution. -/
theorem cost_gate_without_estimate :
    run_query_gate passedReadPolicy false false none (some 10) none none =
      .raised (.attributeError "NoneType object has no attribute estimated_gb")
    ∧ run_exec_gate passedReadPolicy false none none none (some 100) =
      .costDeny (Diagnostic.error COST_OVER_THRESHOLD
        "cost thresholds requested but database cannot estimate cost for this statement type")
    ∧ CliOutcome.exit_code (run_exec_gate passedReadPolicy false none none none (some 100)) = 1
    ∧ run_query_gate passedReadPolicy false false none none none none = .executed
    ∧ run_exec_gate passedReadPolicy false none none none none = .executed :=
  ⟨rfl, rfl, rfl, rfl, rfl⟩

/-- C9 (code bug): `run_policy` computes the READ classification but the
`DiagnosticResult` it builds leaves `classification = None`, so the
read-rejection test of `_run_exec` (`policy_result.classification ==
"read"`) can never fire: a READ statement submitted through the
execute-write entry point proceeds to execution with exit code 0 instead
of being denied.  (`_run_exec` also calls `run_policy` with a
`dangerous_functions=` keyword the function does not accept, a `TypeError`
at call time.) -/
theorem exec_does_not_reject_reads :
    classify selectOneStmt = StatementType.read
    ∧ run_policy (oracleFor "SELECT 1" selectOneStmt) "SELECT 1" none true none =
        .ok passedReadPolicy
    ∧ passedReadPolicy.classification = none
    ∧ run_exec_gate passedReadPolicy true none none none none = .executed
    ∧ CliOutcome.exit_code (run_exec_gate passedReadPolicy true none none none none) = 0 :=
  ⟨rfl, rfl, rfl, rfl, rfl⟩

/-- C4: for every statement whose root is a read node (plain select,
union, intersect, except), `classify` returns DML when some CTE of the
tree has a DML body, otherwise DDL when the `SELECT INTO` test fires,
otherwise READ; in particular every read-rooted statement with a
DML-bodied CTE is classified DML.  (The ADMIN short-circuit in front
never captures a read root.) -/
theorem classify_read_root (s : Node) (h : isReadKind s.kind = true) :
    classify s =
      (if _has_dml_in_cte s then StatementType.dml
       else if _has_into s then StatementType.ddl
       else StatementType.read)
    ∧ (_has_dml_in_cte s = true → classify s = StatementType.dml) := by
  have hb : isBlockedKind s.kind = false := by
    cases hk : s.kind <;> simp_all [isReadKind, isBlockedKind]
  refine ⟨?_, ?_⟩
  · simp [classify, hb, h]
  · intro hd
    simp [classify, hb, h, hd]

/-- `WITH d AS (DELETE FROM t WHERE id=1 RETURNING *) SELECT * FROM d` —
a select root with a DML-bodied CTE. -/
def writableCteStmt : Node :=
  Node.mk NodeKind.select ""
    [Node.mk NodeKind.cte "d"
      [Node.mk NodeKind.delete ""
        [Node.mk NodeKind.table "t" [], Node.mk NodeKind.whereClause "" []]]]

theorem classify_read_root_witness :
    isReadKind writableCteStmt.kind = true
    ∧ _has_dml_in_cte writableCteStmt = true
    ∧ classify writableCteStmt = StatementType.dml :=
  ⟨rfl, rfl, (classify_read_root writableCteStmt rfl).2 rfl⟩

/-! Helper lemmas: the codes each pipeline step can emit. -/

lemma access_control_code {t : StatementType} {aw : Bool} {d : Diagnostic}
    (hd : d ∈ access_control t aw) : d.code = WRITE_BLOCKED ∨ d.code = DDL_BLOCKED := by
  cases t <;> cases aw <;> simp [access_control] at hd
  · subst hd; exact Or.inl rfl
  · subst hd; exact Or.inr rfl

lemma check_delete_without_where_code {s : Node} {sql : String} {d : Diagnostic}
    (h : check_delete_without_where s sql = some d) : d.code = DELETE_WITHOUT_WHERE := by
  simp only [check_delete_without_where] at h
  split at h
  · split at h
    · simp at h
    · simp only [Option.some.injEq] at h
      subst h; rfl
  · simp at h

lemma check_update_without_where_code {s : Node} {sql : String} {d : Diagnostic}
    (h : check_update_without_where s sql = some d) : d.code = UPDATE_WITHOUT_WHERE := by
  simp only [check_update_without_where] at h
  split at h
  · split at h
    · simp at h
    · simp only [Option.some.injEq] at h
      subst h; rfl
  · simp at h

lemma safety_checks_code {s : Node} {sql : String} {d : Diagnostic}
    (hd : d ∈ safety_checks s sql) :
    d.code = DELETE_WITHOUT_WHERE ∨ d.code = UPDATE_WITHOUT_WHERE := by
  simp only [safety_checks, List.mem_filterMap, id_eq] at hd
  obtain ⟨o, ho, hod⟩ := hd
  simp only [List.mem_cons, List.not_mem_nil, or_false] at ho
  rcases ho with h | h
  · subst h; exact Or.inl (check_delete_without_where_code hod)
  · subst h; exact Or.inr (check_update_without_where_code hod)

lemma inject_limit_code {s : Node} {n : Nat} {d : Diagnostic}
    (h : (inject_limit s n).2 = some d) : d.code = LIMIT_INJECTED := by
  simp only [inject_limit] at h
  split at h
  · simp at h
  · split at h
    · simp at h
    · split at h
      · simp at h
      · simp only [Option.some.injEq] at h
        subst h; rfl

lemma enrich_step_code {b : Bool} {t : StatementType} {l : Option Nat} {s : Node}
    {d : Diagnostic} (h : (enrich_step b t l s).2 = some d) : d.code = LIMIT_INJECTED := by
  simp only [enrich_step] at h
  split at h
  · rename_i n
    split at h
    · rename_i st2 ld heq
      simp only [Option.some.injEq] at h
      subst h
      exact inject_limit_code (by rw [heq])
    · simp at h
  · simp at h

/-- C3: whenever `sqlglot.parse` yields more than one non-empty statement
on the (stripped) input, `run_policy` halts blocked with exactly the Q0202
error whose primary span sits at the first `;` (mid-string when absent);
and whenever at most one non-empty statement is yielded — a single
statement with trailing semicolons parses to one statement plus `None`
entries — no Q0202 diagnostic appears anywhere in the result. -/
theorem run_policy_multiple_statements (sqlglot : Sqlglot) (sql : String)
    (dialect : Option String) (allow_write : Bool) (limit : Option Nat) :
    (∀ stmts, sqlglot.parse (pyStrip sql) = .ok stmts →
       1 < (stmts.filterMap id).length →
       ∃ d, run_policy sqlglot sql dialect allow_write limit =
           .ok ⟨pyStrip sql, none, [d], true, [], none⟩
         ∧ d.level = Level.error
         ∧ d.code = MULTIPLE_STATEMENTS
         ∧ d.spans = [⟨⟨firstSemiElseMid (pyStrip sql), firstSemiElseMid (pyStrip sql) + 1⟩,
             SpanKind.primary, some "second statement starts here"⟩])
    ∧ (∀ stmts r, sqlglot.parse (pyStrip sql) = .ok stmts →
       (stmts.filterMap id).length ≤ 1 →
       run_policy sqlglot sql dialect allow_write limit = .ok r →
       ∀ d ∈ r.diagnostics, d.code ≠ MULTIPLE_STATEMENTS) := by
  constructor
  · intro stmts hparse hgt
    have hcms : check_multiple_statements sqlglot (pyStrip sql) =
        some ((((Diagnostic.error MULTIPLE_STATEMENTS "multiple statements detected").span
              ⟨firstSemiElseMid (pyStrip sql), firstSemiElseMid (pyStrip sql) + 1⟩
              "second statement starts here").note
            "only single statements are allowed (possible SQL injection)").note
          "split into separate dbastion query calls if intentional") := by
      simp [check_multiple_statements, hparse, Nat.not_le.mpr hgt]
    refine ⟨(((Diagnostic.error MULTIPLE_STATEMENTS "multiple statements detected").span
        ⟨firstSemiElseMid (pyStrip sql), firstSemiElseMid (pyStrip sql) + 1⟩
        "second statement starts here").note
        "only single statements are allowed (possible SQL injection)").note
      "split into separate dbastion query calls if intentional", ?_, rfl, rfl, rfl⟩
    simp [run_policy, hcms]
  · intro stmts r hparse hle hrun d hd
    have hcms : check_multiple_statements sqlglot (pyStrip sql) = none := by
      simp [check_multiple_statements, hparse, hle]
    rw [run_policy] at hrun
    simp only [hcms] at hrun
    cases hpo : sqlglot.parse_one (pyStrip sql) dialect with
    | error e =>
      cases e with
      | parseError msg =>
        simp only [hpo, Except.ok.injEq] at hrun
        subst hrun
        simp only [List.mem_singleton] at hd
        subst hd
        show SYNTAX_ERROR ≠ MULTIPLE_STATEMENTS
        decide
      | tokenizeError msg =>
        simp [hpo] at hrun
    | ok statement =>
      simp only [hpo, Except.ok.injEq] at hrun
      subst hrun
      simp only [List.mem_append] at hd
      rcases hd with hd | hd
      · rcases hd with hd | hd
        · rcases access_control_code hd with h | h <;> rw [h] <;> decide
        · rcases safety_checks_code hd with h | h <;> rw [h] <;> decide
      · rw [Option.mem_toList, Option.mem_def] at hd
        rw [enrich_step_code hd]
        decide

/-- `DROP TABLE users`. -/
def dropStmt : Node := Node.mk NodeKind.drop "" [Node.mk NodeKind.table "users" []]

def multiSql : String := "SELECT 1; DROP TABLE users"

/-- Oracle for the injection scenario: `sqlglot.parse` yields two
statements. -/
def multiOracle : Sqlglot :=
  ⟨fun _ => .ok [some selectOneStmt, some dropStmt],
   fun _ _ => .error (.parseError "unexpected token")⟩

/-- Oracle for a single statement with a trailing semicolon:
`sqlglot.parse` yields the statement plus a `None` entry. -/
def trailingSemiOracle : Sqlglot :=
  ⟨fun _ => .ok [some selectOneStmt, none],
   fun _ _ => .ok selectOneStmt⟩

theorem run_policy_multiple_statements_witness :
    multiOracle.parse (pyStrip multiSql) = .ok [some selectOneStmt, some dropStmt]
    ∧ 1 < ([some selectOneStmt, some dropStmt].filterMap id).length
    ∧ (∃ d, run_policy multiOracle multiSql none false (some 1000) =
          .ok ⟨pyStrip multiSql, none, [d], true, [], none⟩
        ∧ d.code = MULTIPLE_STATEMENTS
        ∧ d.spans = [⟨⟨8, 9⟩, SpanKind.primary, some "second statement starts here"⟩])
    ∧ trailingSemiOracle.parse (pyStrip "SELECT 1;") = .ok [some selectOneStmt, none]
    ∧ ([some selectOneStmt, none].filterMap id).length ≤ 1
    ∧ (∀ d ∈ (⟨"SELECT 1;", none, [], false, [], none⟩ : DiagnosticResult).diagnostics,
        d.code ≠ MULTIPLE_STATEMENTS) := by
  have h1 := (run_policy_multiple_statements multiOracle multiSql none false (some 1000)).1
    [some selectOneStmt, some dropStmt] rfl (by decide)
  have h2 := (run_policy_multiple_statements trailingSemiOracle "SELECT 1;" none false none).2
    [some selectOneStmt, none] ⟨"SELECT 1;", none, [], false, [], none⟩ rfl (by decide) rfl
  refine ⟨rfl, by decide, ?_, rfl, by decide, h2⟩
  obtain ⟨d, hrun, hlv, hcode, hspans⟩ := h1
  exact ⟨d, hrun, hcode, hspans⟩

/-! Helper lemmas about the enriched statement `withLimit s n`. -/

lemma preorderList_append (a b : List Node) :
    preorderList (a ++ b) = preorderList a ++ preorderList b := by
  induction a with
  | nil => rfl
  | cons c cs ih => simp [preorderList, ih, List.append_assoc]

lemma kind_withLimit (s : Node) (n : Nat) : (withLimit s n).kind = s.kind := by
  cases s; rfl

lemma hasKind_withLimit (s : Node) (n : Nat) (k : NodeKind) :
    (withLimit s n).hasKind k = (s.hasKind k || decide (NodeKind.limitClause = k)) := by
  cases s with
  | mk k0 nm cs =>
    simp [withLimit, Node.hasKind, Node.preorder, preorderList_append, preorderList,
      limitNode, List.any_append, Bool.or_assoc, Node.kind, Node.children]

lemma has_dml_in_cte_withLimit (s : Node) (n : Nat) (hk : s.kind = NodeKind.select) :
    _has_dml_in_cte (withLimit s n) = _has_dml_in_cte s := by
  cases s with
  | mk k0 nm cs =>
    have hk0 : k0 = NodeKind.select := hk
    subst hk0
    simp [_has_dml_in_cte, withLimit, Node.preorder, preorderList_append, preorderList,
      limitNode, List.filter_append, Node.kind, Node.children]

lemma has_into_withLimit (s : Node) (n : Nat) (hk : s.kind = NodeKind.select) :
    _has_into (withLimit s n) = _has_into s := by
  unfold _has_into
  rw [kind_withLimit, hasKind_withLimit]
  simp

lemma select_read_components {s : Node} (hk : s.kind = NodeKind.select)
    (hr : classify s = StatementType.read) :
    _has_dml_in_cte s = false ∧ _has_into s = false := by
  unfold classify at hr
  rw [hk] at hr
  simp only [isBlockedKind, isReadKind, if_false, if_true] at hr
  by_cases h1 : _has_dml_in_cte s
  · simp [h1] at hr
  · by_cases h2 : _has_into s
    · simp [h1, h2] at hr
    · exact ⟨by simp [h1], by simp [h2]⟩

lemma classify_withLimit (s : Node) (n : Nat) (hk : s.kind = NodeKind.select)
    (hr : classify s = StatementType.read) :
    classify (withLimit s n) = StatementType.read := by
  obtain ⟨h1, h2⟩ := select_read_components hk hr
  unfold classify
  rw [kind_withLimit, hk, has_dml_in_cte_withLimit s n hk, has_into_withLimit s n hk, h1, h2]
  rfl

lemma inject_limit_withLimit (s : Node) (n m : Nat) (hk : s.kind = NodeKind.select) :
    inject_limit (withLimit s n) m = (withLimit s n, none) := by
  unfold inject_limit
  rw [kind_withLimit, hk, hasKind_withLimit]
  simp

lemma access_control_read (aw : Bool) : access_control StatementType.read aw = [] := by
  cases aw <;> rfl

lemma safety_checks_select (s : Node) (sql : String) (hk : s.kind = NodeKind.select) :
    safety_checks s sql = [] := by
  simp [safety_checks, check_delete_without_where, check_update_without_where, hk]

lemma data_appendStr (a b : String) : (a ++ b).data = a.data ++ b.data := by
  cases a; cases b; rfl

lemma sqlChildren_append (a b : List Node) :
    sqlChildren (a ++ b) = sqlChildren a ++ sqlChildren b := by
  induction a with
  | nil => simp [sqlChildren]
  | cons c cs ih =>
    show " " ++ nodeSql c ++ sqlChildren (cs ++ b) = (" " ++ nodeSql c ++ sqlChildren cs) ++ sqlChildren b
    rw [ih]
    apply String.ext
    simp [data_appendStr, List.append_assoc]

/-- The serialised enriched statement contains the `LIMIT` keyword. -/
lemma limit_infix_withLimit (s : Node) (n : Nat) :
    "LIMIT".data <:+: (nodeSql (withLimit s n)).data := by
  cases s with
  | mk k0 nm cs =>
    show "LIMIT".data <:+: (nodeSql (Node.mk k0 nm (cs ++ [limitNode n]))).data
    have hnode : nodeSql (Node.mk k0 nm (cs ++ [limitNode n])) =
        k0.token ++ (if nm.isEmpty then "" else " " ++ nm) ++ sqlChildren (cs ++ [limitNode n]) := by
      rfl
    rw [hnode, sqlChildren_append]
    have hln : sqlChildren [limitNode n] = " " ++ nodeSql (limitNode n) ++ sqlChildren [] := rfl
    rw [hln]
    have hlim : nodeSql (limitNode n) =
        "LIMIT" ++ (if (toString n).isEmpty then "" else " " ++ toString n) ++ sqlChildren [] := rfl
    rw [hlim]
    refine ⟨(k0.token ++ (if nm.isEmpty then "" else " " ++ nm) ++ sqlChildren cs ++ " ").data,
      ((if (toString n).isEmpty then "" else " " ++ toString n) ++ sqlChildren [] ++
        sqlChildren []).data, ?_⟩
    simp [data_appendStr, List.append_assoc]

lemma check_multiple_statements_code {sqlglot : Sqlglot} {sql : String} {d : Diagnostic}
    (h : check_multiple_statements sqlglot sql = some d) : d.code = MULTIPLE_STATEMENTS := by
  unfold check_multiple_statements at h
  split at h
  · simp at h
  · dsimp only at h
    split at h
    · simp at h
    · simp only [Option.some.injEq] at h
      subst h; rfl

/-- `SELECT 1 UNION SELECT 2` — a read root that is not a plain select. -/
def unionStmt : Node :=
  Node.mk NodeKind.union ""
    [Node.mk NodeKind.select "" [Node.mk NodeKind.literal "1" []],
     Node.mk NodeKind.select "" [Node.mk NodeKind.literal "2" []]]

def unionSql : String := "SELECT 1 UNION SELECT 2"

/-- C7 counterexample: `SELECT 1 UNION SELECT 2` is classified READ and
carries neither `LIMIT` nor `GROUP BY`, yet with the default limit the
pipeline emits no Q0601 and leaves `effective_sql` without `LIMIT`,
because `inject_limit` requires the root to be a plain `exp.Select` and
returns a `Union` root unchanged. -/
theorem union_read_not_enriched :
    classify unionStmt = StatementType.read
    ∧ unionStmt.hasKind NodeKind.limitClause = false
    ∧ unionStmt.hasKind NodeKind.groupClause = false
    ∧ run_policy (oracleFor unionSql unionStmt) unionSql none false (some 1000) =
        .ok ⟨unionSql, none, [], false, [], none⟩
    ∧ ¬ ("LIMIT".data <:+:
        ((⟨unionSql, none, [], false, [], none⟩ : DiagnosticResult).effective_sql).data) :=
  ⟨rfl, rfl, rfl, rfl, by decide⟩

/-- C7 (amended): for every statement whose root is a *plain select*
(rather than any READ-classified root) classified READ, with no `Limit`
and no `Group` node anywhere in the tree and a non-none limit, the
pipeline emits the Q0601 info diagnostic, heals the SQL, and the
effective SQL contains `LIMIT`; and the enrichment round-trips: a second
`run_policy` over the healed SQL (under a parser that reads it back as
the enriched statement) emits no further Q0601. -/
theorem run_policy_limit_injection (sqlglot : Sqlglot) (sql : String)
    (dialect : Option String) (allow_write : Bool) (n : Nat) (statement : Node)
    (hmulti : check_multiple_statements sqlglot (pyStrip sql) = none)
    (hparse : sqlglot.parse_one (pyStrip sql) dialect = .ok statement)
    (hsel : statement.kind = NodeKind.select)
    (hread : classify statement = StatementType.read)
    (hnolimit : statement.hasKind NodeKind.limitClause = false)
    (hnogroup : statement.hasKind NodeKind.groupClause = false) :
    (∃ r, run_policy sqlglot sql dialect allow_write (some n) = .ok r
      ∧ (∃ d ∈ r.diagnostics, d.code = LIMIT_INJECTED ∧ d.level = Level.info)
      ∧ r.blocked = false
      ∧ r.healed_sql = some (nodeSql (withLimit statement n))
      ∧ "LIMIT".data <:+: r.effective_sql.data)
    ∧ (∀ (sqlglot2 : Sqlglot) (dialect2 : Option String) (allow_write2 : Bool)
          (r2 : DiagnosticResult),
        sqlglot2.parse_one (pyStrip (nodeSql (withLimit statement n))) dialect2 =
          .ok (withLimit statement n) →
        run_policy sqlglot2 (nodeSql (withLimit statement n)) dialect2 allow_write2 (some n) =
          .ok r2 →
        ∀ d ∈ r2.diagnostics, d.code ≠ LIMIT_INJECTED) := by
  have hinj : inject_limit statement n =
      (withLimit statement n,
       some ((Diagnostic.info LIMIT_INJECTED
          ("LIMIT " ++ toString n ++ " added to unbounded SELECT")).note
        "override with --no-limit or --limit N")) := by
    unfold inject_limit
    rw [hsel, hnolimit, hnogroup]
    rfl
  have hsel2 : (withLimit statement n).kind = NodeKind.select := by
    rw [kind_withLimit, hsel]
  have hread2 := classify_withLimit statement n hsel hread
  constructor
  · have hrunEq : run_policy sqlglot sql dialect allow_write (some n) =
        .ok ⟨pyStrip sql,
          some (nodeSql (withLimit statement n)),
          [(Diagnostic.info LIMIT_INJECTED
              ("LIMIT " ++ toString n ++ " added to unbounded SELECT")).note
            "override with --no-limit or --limit N"],
          false, extract_tables statement, none⟩ := by
      rw [run_policy]
      simp only [hmulti, hparse, hread, access_control_read,
        safety_checks_select statement (pyStrip sql) hsel]
      simp [enrich_step, hinj, Diagnostic.is_blocking, Diagnostic.info, Diagnostic.note]
    refine ⟨_, hrunEq, ⟨_, List.mem_singleton.mpr rfl, rfl, rfl⟩, rfl, rfl, ?_⟩
    exact limit_infix_withLimit statement n
  · intro sqlglot2 dialect2 allow_write2 r2 hparse2 hrun2 d hd
    rw [run_policy] at hrun2
    rcases hcm2 : check_multiple_statements sqlglot2 (pyStrip (nodeSql (withLimit statement n)))
      with _ | md
    · simp only [hcm2, hparse2, hread2, access_control_read,
        safety_checks_select _ _ hsel2, enrich_step,
        inject_limit_withLimit statement n n hsel] at hrun2
      simp only [List.nil_append, Option.toList_none, List.append_nil,
        List.any_nil, Except.ok.injEq] at hrun2
      subst hrun2
      simp [inject_limit_withLimit statement n n hsel] at hd
    · simp only [hcm2, Except.ok.injEq] at hrun2
      subst hrun2
      simp only [List.mem_singleton] at hd
      subst hd
      rw [check_multiple_statements_code hcm2]
      decide

/-- A bare `SELECT` statement (no clauses at all). -/
def c7Stmt : Node := Node.mk NodeKind.select "" []

/-- Oracle that reads the bare select and reads its own healed rendering
back as the enriched statement. -/
def c7Oracle : Sqlglot :=
  ⟨fun _ => .ok [some c7Stmt],
   fun s _ =>
     if s = "SELECT LIMIT 1000" then .ok (withLimit c7Stmt 1000)
     else if s = "SELECT" then .ok c7Stmt
     else .error (.parseError "unexpected input")⟩

theorem run_policy_limit_injection_witness :
    check_multiple_statements c7Oracle (pyStrip "SELECT") = none
    ∧ c7Oracle.parse_one (pyStrip "SELECT") none = .ok c7Stmt
    ∧ c7Stmt.kind = NodeKind.select
    ∧ classify c7Stmt = StatementType.read
    ∧ c7Stmt.hasKind NodeKind.limitClause = false
    ∧ c7Stmt.hasKind NodeKind.groupClause = false
    ∧ (∃ r, run_policy c7Oracle "SELECT" none false (some 1000) = .ok r
        ∧ (∃ d ∈ r.diagnostics, d.code = LIMIT_INJECTED ∧ d.level = Level.info)
        ∧ r.blocked = false
        ∧ "LIMIT".data <:+: r.effective_sql.data)
    ∧ (∀ r2 : DiagnosticResult,
        run_policy c7Oracle (nodeSql (withLimit c7Stmt 1000)) none false (some 1000) = .ok r2 →
        ∀ d ∈ r2.diagnostics, d.code ≠ LIMIT_INJECTED) := by
  have h := run_policy_limit_injection c7Oracle "SELECT" none false 1000 c7Stmt
    rfl rfl rfl rfl rfl rfl
  refine ⟨rfl, rfl, rfl, rfl, rfl, rfl, ?_, ?_⟩
  · obtain ⟨⟨r, h1, h2, h3, h4, h5⟩, _⟩ := h
    exact ⟨r, h1, h2, h3, h5⟩
  · intro r2 hrun2 d hd
    exact h.2 c7Oracle none false r2 rfl hrun2 d hd

/-! Helper lemmas for `apply_fixes`: the descending stable sort and the
adjacent-overlap scan. -/

lemma overlaps_symm {a b : SubstitutionPart}
    (h : ¬ Span.overlaps a.span b.span) : ¬ Span.overlaps b.span a.span :=
  fun hba => h ⟨hba.2, hba.1⟩

/-- After the descending sort, a passed adjacency scan separates every
later part from every earlier one. -/
lemma pairwise_gap_of_not_adjacentBad :
    ∀ (l : List SubstitutionPart), List.Sorted partGe l → adjacentBad l = false →
      l.Pairwise (fun a b => b.span.stop ≤ a.span.start)
  | [], _, _ => List.Pairwise.nil
  | [a], _, _ => by simp
  | a :: b :: t, hs, hadj => by
    simp only [adjacentBad, Bool.or_eq_false_iff, decide_eq_false_iff_not] at hadj
    have hrec := pairwise_gap_of_not_adjacentBad (b :: t) hs.of_cons hadj.2
    refine List.Pairwise.cons ?_ hrec
    intro c hc
    rcases List.mem_cons.mp hc with rfl | hct
    · exact Nat.le_of_not_lt hadj.1
    · have h1 : c.span.stop ≤ b.span.start := (List.pairwise_cons.mp hrec).1 c hct
      have h2 : partGe a b := (List.sorted_cons.mp hs).1 b (List.mem_cons_self b t)
      exact Nat.le_trans h1 h2

/-- On a descending-sorted batch of nonempty pairwise-disjoint spans the
adjacency scan passes. -/
lemma not_adjacentBad_of_pairwise :
    ∀ (l : List SubstitutionPart), List.Sorted partGe l →
      (∀ p ∈ l, p.span.start < p.span.stop) →
      l.Pairwise (fun a b => ¬ Span.overlaps a.span b.span) →
      adjacentBad l = false
  | [], _, _, _ => rfl
  | [a], _, _, _ => rfl
  | a :: b :: t, hs, hwf, hpw => by
    simp only [adjacentBad, Bool.or_eq_false_iff, decide_eq_false_iff_not]
    constructor
    · intro hlt
      have hab : ¬ Span.overlaps a.span b.span :=
        (List.pairwise_cons.mp hpw).1 b (List.mem_cons_self b t)
      refine hab ⟨hlt, ?_⟩
      have hba : partGe a b := (List.sorted_cons.mp hs).1 b (List.mem_cons_self b t)
      exact Nat.lt_of_le_of_lt hba (hwf a (List.mem_cons_self a (b :: t)))
    · exact not_adjacentBad_of_pairwise (b :: t) hs.of_cons
        (fun p hp => hwf p (List.mem_cons_of_mem a hp)) (List.pairwise_cons.mp hpw).2

/-- Two diagnostics carrying MachineApplicable fixes at `[5,5)` and
`[5,8)`. -/
def tieDiag1 : Diagnostic :=
  (Diagnostic.error COLUMN_NOT_FOUND "column a not found").fix "insert alias" ⟨5, 5⟩ "x"

def tieDiag2 : Diagnostic :=
  (Diagnostic.error COLUMN_NOT_FOUND "column b not found").fix "rewrite" ⟨5, 8⟩ "yyy"

/-- C5 counterexample: `apply_fixes` returns `None` on two pairwise
non-overlapping batches — the empty batch, and a batch holding an empty
span `[5,5)` together with `[5,8)` (no common offset, yet the
sorted-adjacency test `parts[1].end > parts[0].start` fires).  The claim
as stated promises a string for both. -/
theorem apply_fixes_nonoverlapping_counterexample :
    apply_fixes "SELECT 1" [] = none
    ∧ List.Pairwise (fun a b => ¬ Span.overlaps a.span b.span)
        (gatherParts [tieDiag1, tieDiag2])
    ∧ gatherParts [tieDiag1, tieDiag2] ≠ []
    ∧ apply_fixes "SELECT id FROM t" [tieDiag1, tieDiag2] = none :=
  ⟨rfl, by decide, by decide, rfl⟩

/-- C5 (amended): for every *nonempty* batch of MachineApplicable parts
with *nonempty* pairwise non-overlapping spans, `apply_fixes` returns a
string; for every batch in which the spans of some two parts overlap it returns
`None`; and it never applies partially — any returned string is exactly
the original with every part spliced in, applied in descending start
order. -/
theorem apply_fixes_total_or_none (sql : String) (diagnostics : List Diagnostic) :
    (gatherParts diagnostics ≠ [] →
      (∀ p ∈ gatherParts diagnostics, p.span.start < p.span.stop) →
      List.Pairwise (fun a b => ¬ Span.overlaps a.span b.span) (gatherParts diagnostics) →
      (apply_fixes sql diagnostics).isSome = true)
    ∧ (¬ List.Pairwise (fun a b => ¬ Span.overlaps a.span b.span) (gatherParts diagnostics) →
      apply_fixes sql diagnostics = none)
    ∧ (∀ r, apply_fixes sql diagnostics = some r →
      r = (List.insertionSort partGe (gatherParts diagnostics)).foldl spliceOne sql) := by
  have hperm : List.Perm (List.insertionSort partGe (gatherParts diagnostics))
      (gatherParts diagnostics) :=
    List.perm_insertionSort partGe (gatherParts diagnostics)
  have hsorted : List.Sorted partGe (List.insertionSort partGe (gatherParts diagnostics)) :=
    List.sorted_insertionSort partGe (gatherParts diagnostics)
  refine ⟨?_, ?_, ?_⟩
  · intro hne hwf hpw
    have hadj : adjacentBad (List.insertionSort partGe (gatherParts diagnostics)) = false :=
      not_adjacentBad_of_pairwise _ hsorted
        (fun p hp => hwf p (hperm.mem_iff.mp hp))
        ((hperm.pairwise_iff overlaps_symm).mpr hpw)
    unfold apply_fixes
    dsimp only
    rw [if_neg (by simpa [List.isEmpty_iff] using hne), if_neg (by simp [hadj])]
    rfl
  · intro hnpw
    cases happ : apply_fixes sql diagnostics with
    | none => rfl
    | some r =>
      exfalso
      unfold apply_fixes at happ
      dsimp only at happ
      split at happ
      · simp at happ
      · split at happ
        · simp at happ
        · rename_i hadj
          apply hnpw
          exact (hperm.pairwise_iff overlaps_symm).mp
            ((pairwise_gap_of_not_adjacentBad _ hsorted
              (Bool.of_not_eq_true hadj)).imp
              (fun {a b} (hgap : b.span.stop ≤ a.span.start)
                (hov : Span.overlaps a.span b.span) =>
                Nat.lt_irrefl _ (Nat.lt_of_lt_of_le hov.1 hgap)))
  · intro r happ
    unfold apply_fixes at happ
    dsimp only at happ
    split at happ
    · simp at happ
    · split at happ
      · simp at happ
      · simp only [Option.some.injEq] at happ
        exact happ.symm

/-- C5 witness fixtures: two MachineApplicable fixes with disjoint
nonempty spans over `SELECT aa, bb FROM t`. -/
def fixDiag1 : Diagnostic :=
  (Diagnostic.error COLUMN_NOT_FOUND "column aa not found").fix "rename aa" ⟨7, 9⟩ "xx"

def fixDiag2 : Diagnostic :=
  (Diagnostic.error COLUMN_NOT_FOUND "column bb not found").fix "rename bb" ⟨11, 13⟩ "yy"

theorem apply_fixes_total_or_none_witness :
    gatherParts [fixDiag1, fixDiag2] ≠ []
    ∧ (∀ p ∈ gatherParts [fixDiag1, fixDiag2], p.span.start < p.span.stop)
    ∧ List.Pairwise (fun a b => ¬ Span.overlaps a.span b.span)
        (gatherParts [fixDiag1, fixDiag2])
    ∧ (apply_fixes "SELECT aa, bb FROM t" [fixDiag1, fixDiag2]).isSome = true
    ∧ apply_fixes "SELECT aa, bb FROM t" [fixDiag1, fixDiag2] = some "SELECT xx, yy FROM t" :=
  ⟨by decide, by decide, by decide,
   (apply_fixes_total_or_none "SELECT aa, bb FROM t" [fixDiag1, fixDiag2]).1
     (by decide) (by decide) (by decide),
   rfl⟩

/-! Helper lemma for `cleanup_old_logs`: the unlink loop equals a filter. -/

lemma erase_foldl_filter (p : String → Bool) :
    ∀ (files entries : List String) (acc : Nat), entries.Nodup →
      files.foldl
        (fun (st : List String × Nat) name =>
          if p name then (st.1.erase name, st.2 + 1) else st)
        (entries, acc)
      = (entries.filter (fun n => !(files.contains n && p n)), acc + files.countP p)
  | [], entries, acc, hnd => by
    simp [List.countP_nil]
  | f :: fs, entries, acc, hnd => by
    rw [List.foldl_cons]
    by_cases hf : p f = true
    · rw [if_pos hf, erase_foldl_filter p fs (entries.erase f) (acc + 1) (hnd.erase f)]
      refine Prod.ext ?_ ?_
      · show (entries.erase f).filter _ = entries.filter _
        rw [hnd.erase_eq_filter f, List.filter_filter]
        apply List.filter_congr
        intro n hn
        by_cases hnf : n = f
        · subst hnf
          simp [hf]
        · simp [List.contains_cons, hnf, bne_iff_ne, beq_false_of_ne hnf]
      · show acc + 1 + fs.countP p = acc + (f :: fs).countP p
        simp [List.countP_cons, hf]
        omega
    · have hf0 : p f = false := by simpa using hf
      rw [if_neg (by simp [hf0]), erase_foldl_filter p fs entries acc hnd]
      refine Prod.ext ?_ ?_
      · apply List.filter_congr
        intro n hn
        by_cases hnf : n = f
        · subst hnf
          simp [hf0, List.contains_cons]
        · simp [List.contains_cons, beq_false_of_ne hnf, hnf]
      · show acc + fs.countP p = acc + (f :: fs).countP p
        simp [List.countP_cons, hf0]

/-- C10: on a duplicate-free directory listing, `cleanup_old_logs` deletes
exactly the entries that match the `*.jsonl` glob and whose stem parses
(via `strptime("%Y-%m-%d")`) as a date strictly before `now` minus the
retention window: the remaining entries are precisely the non-expired
ones in order, the returned count is the number of expired log files, and
the directory itself survives exactly when something remains in it. -/
theorem cleanup_old_logs_deletes_exactly_expired (entries : List String) (nowSec : Int)
    (retention_days : Nat) (hnodup : entries.Nodup) :
    cleanup_old_logs true entries nowSec retention_days =
      ((entries.filter (expiredLogName nowSec retention_days)).length,
       !(entries.filter (fun n => !expiredLogName nowSec retention_days n)).isEmpty,
       entries.filter (fun n => !expiredLogName nowSec retention_days n)) := by
  have hfold := erase_foldl_filter (logFileTooOld nowSec retention_days)
    (entries.filter globJsonl) entries 0 hnodup
  have hrem : entries.filter
      (fun n => !((entries.filter globJsonl).contains n && logFileTooOld nowSec retention_days n))
      = entries.filter (fun n => !expiredLogName nowSec retention_days n) := by
    apply List.filter_congr
    intro n hn
    have hmem : (entries.filter globJsonl).contains n = globJsonl n := by
      show (entries.filter globJsonl).elem n = globJsonl n
      rw [List.elem_eq_mem]
      by_cases hg : globJsonl n = true
      · simp [List.mem_filter, hn, hg]
      · have hg0 : globJsonl n = false := by simpa using hg
        simp [List.mem_filter, hg0]
    rw [hmem]
    rfl
  have hcnt : (entries.filter globJsonl).countP (logFileTooOld nowSec retention_days)
      = (entries.filter (expiredLogName nowSec retention_days)).length := by
    rw [List.countP_eq_length_filter, List.filter_filter]
    congr 1
    apply List.filter_congr
    intro n hn
    show (logFileTooOld nowSec retention_days n && globJsonl n)
        = expiredLogName nowSec retention_days n
    rw [Bool.and_comm]
    rfl
  unfold cleanup_old_logs
  rw [if_neg (by simp)]
  dsimp only
  rw [hfold, hrem]
  rcases hempty : entries.filter (fun n => !expiredLogName nowSec retention_days n) with _ | ⟨a, t⟩
  · simp [hempty, hcnt]
  · simp [hempty, hcnt]

/-- C10 witness fixture: an expired log file, a future-dated one, a
non-matching name and a `.jsonl` file with an unparseable stem. -/
def logEntries : List String :=
  ["2020-01-01.jsonl", "2099-12-31.jsonl", "notes.txt", "garbage.jsonl"]

/-- UTC midnight of 2025-10-12 as a POSIX timestamp. -/
def nowOct2025 : Int := dateSecUTC ⟨2025, 10, 12⟩

theorem cleanup_old_logs_deletes_exactly_expired_witness :
    logEntries.Nodup
    ∧ cleanup_old_logs true logEntries nowOct2025 30 =
        (1, true, ["2099-12-31.jsonl", "notes.txt", "garbage.jsonl"]) :=
  ⟨by decide,
   (cleanup_old_logs_deletes_exactly_expired logEntries nowOct2025 30 (by decide)).trans
     (by decide)⟩

end DBastion
